import Mathlib

/-!
Verification of the adaptive silence-gated recording controller of
Jump Cut Hero (src/App.tsx, src/constants.ts).

The embedding is shallow: the constants of src/constants.ts become Lean
constants, the per-tick volume classification and the pause/resume handlers
of src/App.tsx become pure Lean functions, and the interleaving of the
analysis loop, the debounce timeout, the calibration timers and the manual
commands becomes an explicit step function on an AppState record, driven by
an event list.  JS numbers are modelled as exact rationals (every constant
involved — 2.0, 2.5, byte magnitudes, their finite sums and quotients — is
exactly representable in binary64, so rational arithmetic is faithful here);
the single place where NaN can arise (0/0 on an empty bin array) is modelled
with Option, none standing for NaN.
-/

namespace JumpCutHero

/-! ## Constants (src/constants.ts) -/

def CALIBRATION_TIME_MS : Int := 3000

def BASE_SILENCE_DETECTION_TIME_MS : Int := 400

def PAUSE_TIGHTNESS_STEP_MS : Int := 50

def SILENCE_MULTIPLIER : ℚ := 2

def SOUND_MULTIPLIER : ℚ := 5 / 2

def FFT_SIZE : Nat := 256

/-! ## LevelMeter (src/App.tsx lines 156-159 and 250-252)

`averageVolume = dataArray.reduce((acc, val) => acc + val, 0) / dataArray.length`.
In JS, when `dataArray.length = 0` the reduce yields 0 and `0 / 0` is NaN;
we model a JS number that may be NaN as `Option ℚ` with `none` for NaN. -/

def averageVolume (dataArray : List Nat) : Option ℚ :=
  if dataArray.length = 0 then none
  else some ((dataArray.sum : ℚ) / (dataArray.length : ℚ))

/-- JS `<` on a possibly-NaN left operand: any comparison with NaN is false. -/
def jsLt (x : Option ℚ) (y : ℚ) : Bool :=
  match x with
  | none => false
  | some q => decide (q < y)

/-- JS `>` on a possibly-NaN left operand: any comparison with NaN is false. -/
def jsGt (x : Option ℚ) (y : ℚ) : Bool :=
  match x with
  | none => false
  | some q => decide (y < q)

/-! ## HysteresisGate (src/App.tsx lines 161-162) -/

def isSilent (averageVolume silenceThreshold : ℚ) : Bool :=
  decide (averageVolume < silenceThreshold * SILENCE_MULTIPLIER)

def isLoudEnoughToResume (averageVolume silenceThreshold : ℚ) : Bool :=
  decide (silenceThreshold * SOUND_MULTIPLIER < averageVolume)

inductive SampleClass
  | Silent
  | Loud
  | Neutral
deriving DecidableEq, Repr

/-- The three-way classification of one sample.  The code keeps the two
booleans separate; the branch structure of `runAudioAnalysis` tests
`isSilent` first (lines 168/178) and `isLoudEnoughToResume` only in the
paused branch (line 183), which this if-chain mirrors. -/
def classify (v b : ℚ) : SampleClass :=
  if isSilent v b then SampleClass.Silent
  else if isLoudEnoughToResume v b then SampleClass.Loud
  else SampleClass.Neutral

/-! ## PauseTightness (src/App.tsx lines 317-319 and 165) -/

/-- `setPauseTightness(prev => Math.max(-5, Math.min(5, prev + delta)))`. -/
def handleTightnessChange (prev delta : Int) : Int :=
  max (-5) (min 5 (prev + delta))

/-- Line 165: `BASE_SILENCE_DETECTION_TIME_MS - (pauseTightness * PAUSE_TIGHTNESS_STEP_MS)`. -/
def silenceDetectionTime (pauseTightness : Int) : Int :=
  BASE_SILENCE_DETECTION_TIME_MS - pauseTightness * PAUSE_TIGHTNESS_STEP_MS

/-- The delay actually handed to `setTimeout`, which clamps negative delays
to 0; in milliseconds. -/
def effectiveDelay (pauseTightness : Int) : Nat :=
  (silenceDetectionTime pauseTightness).toNat

/-! ## Calibrator (src/App.tsx lines 259-271)

At the end of the calibration window:
`average = calibrationData.reduce((a,b) => a+b, 0) / calibrationData.length`
and `silenceThresholdRef.current = average > 0 ? average : 1` when samples
exist, else `1`. -/

def calibratedSilenceThreshold (calibrationData : List ℚ) : ℚ :=
  if calibrationData.length > 0 then
    let average := calibrationData.sum / (calibrationData.length : ℚ)
    if average > 0 then average else 1
  else 1

/-! ## The controller state machine (src/App.tsx)

The mutable state of App that the controller logic reads and writes:
`recordingState`, `mediaRecorderRef` (with the MediaRecorder's own state),
`silenceTimerRef`, `isManuallyPaused`, `pauseTightness`,
`silenceThresholdRef`, and the calibration timers and sample array that live
in the closure of `startCalibration`.

`silenceTimerRef` needs three values, not two: the code tests the ref for
null before arming (line 169) but the timeout callback (lines 170-176) and
`stopRecording` (line 145) never write null back, so after a fire or a stop
the ref holds a spent handle — non-null, yet with no timeout pending.
`TimerRef.spent` models exactly that. -/

inductive RecordingState
  | IDLE
  | CALIBRATING
  | RECORDING
  | PAUSED
  | STOPPED
deriving DecidableEq, Repr

inductive MediaRecorderState
  | inactive
  | recording
  | paused
deriving DecidableEq, Repr

inductive TimerRef
  | null
  | armed (deadline : Nat)
  | spent
deriving DecidableEq, Repr

structure AppState where
  recordingState : RecordingState
  mediaRecorder : Option MediaRecorderState
  silenceTimer : TimerRef
  isManuallyPaused : Bool
  pauseTightness : Int
  silenceThreshold : ℚ
  calTimersArmed : Bool
  calibrationData : List ℚ
deriving DecidableEq, Repr

/-- The events the cooperative scheduler interleaves: an analysis-loop tick
carrying the sampled volume, the silence-debounce timeout firing, the two
manual commands, the stop command, one 50 ms calibration-collection tick,
and the calibration-window completion timeout. -/
inductive Event
  | analysisTick (now : Nat) (volume : ℚ)
  | silenceTimerFire (now : Nat)
  | manualPause
  | manualResume
  | stop
  | calibrationTick (volume : ℚ)
  | calibrationComplete
deriving DecidableEq, Repr

/-- One pass of `runAudioAnalysis` (lines 150-190) at time `now` with the
sampled average volume `v`: skipped while CALIBRATING (line 151); in the
recording-and-silent branch a timeout for `silenceDetectionTime` ms is armed
only if the timer ref is null (lines 168-177); in the recording-and-not-
silent branch a non-null ref is cleared and nulled (lines 178-182); in the
paused branch a loud sample resumes unless manually paused (lines 183-186). -/
def stepAnalysisTick (s : AppState) (now : Nat) (v : ℚ) : AppState :=
  if s.recordingState = RecordingState.CALIBRATING then s
  else
    match s.mediaRecorder with
    | none => s
    | some MediaRecorderState.inactive => s
    | some MediaRecorderState.recording =>
      if isSilent v s.silenceThreshold then
        match s.silenceTimer with
        | TimerRef.null =>
          { s with silenceTimer := TimerRef.armed (now + effectiveDelay s.pauseTightness) }
        | _ => s
      else
        match s.silenceTimer with
        | TimerRef.null => s
        | _ => { s with silenceTimer := TimerRef.null }
    | some MediaRecorderState.paused =>
      if isLoudEnoughToResume v s.silenceThreshold ∧ s.isManuallyPaused = false then
        { s with mediaRecorder := some MediaRecorderState.recording,
                 recordingState := RecordingState.RECORDING }
      else s

/-- The silence-timeout callback (lines 170-176): if the recorder is still
recording, clear the manual flag, pause the recorder and set PAUSED.  The
timeout is consumed either way, but the ref is never nulled, so the handle
becomes spent. -/
def stepSilenceTimerFire (s : AppState) : AppState :=
  match s.mediaRecorder with
  | some MediaRecorderState.recording =>
    { s with isManuallyPaused := false,
             mediaRecorder := some MediaRecorderState.paused,
             recordingState := RecordingState.PAUSED,
             silenceTimer := TimerRef.spent }
  | _ => { s with silenceTimer := TimerRef.spent }

/-- `handleManualPause` (lines 289-295). -/
def stepManualPause (s : AppState) : AppState :=
  match s.mediaRecorder with
  | some MediaRecorderState.recording =>
    { s with mediaRecorder := some MediaRecorderState.paused,
             recordingState := RecordingState.PAUSED,
             isManuallyPaused := true }
  | _ => s

/-- `handleResume` (lines 297-303). -/
def stepManualResume (s : AppState) : AppState :=
  match s.mediaRecorder with
  | some MediaRecorderState.paused =>
    { s with isManuallyPaused := false,
             mediaRecorder := some MediaRecorderState.recording,
             recordingState := RecordingState.RECORDING }
  | _ => s

/-- `stopRecording` (lines 140-148): stops the recorder and sets STOPPED only
when a recorder exists and the state is neither IDLE nor STOPPED; clears a
pending silence timeout (without nulling the ref); clears the manual flag.
It never touches the calibration interval/timeout handles, which are local
to `startCalibration`'s closure. -/
def stepStop (s : AppState) : AppState :=
  let s1 :=
    if s.mediaRecorder.isSome ∧ s.recordingState ≠ RecordingState.IDLE ∧
        s.recordingState ≠ RecordingState.STOPPED then
      { s with mediaRecorder := some MediaRecorderState.inactive,
               recordingState := RecordingState.STOPPED }
    else s
  let s2 :=
    match s1.silenceTimer with
    | TimerRef.armed _ => { s1 with silenceTimer := TimerRef.spent }
    | t => { s1 with silenceTimer := t }
  { s2 with isManuallyPaused := false }

/-- One 50 ms tick of `collectCalibrationData` (lines 248-255): while the
calibration machinery is live, append the sampled average volume. -/
def stepCalibrationTick (s : AppState) (v : ℚ) : AppState :=
  if s.calTimersArmed then { s with calibrationData := s.calibrationData ++ [v] }
  else s

/-- The calibration-window timeout (lines 259-271): clear both intervals,
compute and install the baseline, and call `startActualRecording` (lines
192-216), which sets RECORDING and starts the MediaRecorder. -/
def stepCalibrationComplete (s : AppState) : AppState :=
  if s.calTimersArmed then
    { s with calTimersArmed := false,
             silenceThreshold := calibratedSilenceThreshold s.calibrationData,
             recordingState := RecordingState.RECORDING,
             mediaRecorder := some MediaRecorderState.recording }
  else s

def step (s : AppState) (e : Event) : AppState :=
  match e with
  | Event.analysisTick now v => stepAnalysisTick s now v
  | Event.silenceTimerFire _ => stepSilenceTimerFire s
  | Event.manualPause => stepManualPause s
  | Event.manualResume => stepManualResume s
  | Event.stop => stepStop s
  | Event.calibrationTick v => stepCalibrationTick s v
  | Event.calibrationComplete => stepCalibrationComplete s

def run (s : AppState) (es : List Event) : AppState :=
  es.foldl step s

/-- A `silenceTimerFire now` event can actually occur only when a timeout is
pending with that deadline; a `calibrationComplete` only while the
calibration timers have not been cleared.  All other events are always
possible. -/
def eventEnabled (s : AppState) (e : Event) : Prop :=
  match e with
  | Event.silenceTimerFire now => s.silenceTimer = TimerRef.armed now
  | Event.calibrationComplete => s.calTimersArmed = true
  | _ => True

/-- The events generated by the system itself (analysis-loop ticks and the
debounce timeout), as opposed to user commands. -/
def autoEvent : Event → Bool
  | Event.analysisTick _ _ => true
  | Event.silenceTimerFire _ => true
  | _ => false

/-- The state `startCalibration` (lines 218-277) establishes: CALIBRATING, no
recorder yet, no silence timeout, manual flag cleared, threshold ref still
at its initial 0, calibration timers armed over an empty sample array. -/
def startCalibrationState (tightness : Int) : AppState :=
  { recordingState := RecordingState.CALIBRATING
    mediaRecorder := none
    silenceTimer := TimerRef.null
    isManuallyPaused := false
    pauseTightness := tightness
    silenceThreshold := 0
    calTimersArmed := true
    calibrationData := [] }

/-- The state just after a calibration that measured baseline 10 completes,
with tightness 0: recording, no pending pause.  Reachable:
`claim_C4_stale_timer_trace` recomputes it from `startCalibrationState`. -/
def recordingInit : AppState :=
  { recordingState := RecordingState.RECORDING
    mediaRecorder := some MediaRecorderState.recording
    silenceTimer := TimerRef.null
    isManuallyPaused := false
    pauseTightness := 0
    silenceThreshold := 10
    calTimersArmed := false
    calibrationData := [10] }

/-- `recordingInit` with the silence timeout armed for deadline 400, as a
silent tick at t = 0 leaves it. -/
def stateArmed : AppState :=
  { recordingInit with silenceTimer := TimerRef.armed 400 }

/-- The PAUSED configuration with no manual override (baseline 10), used as
the C7 witness state. -/
def statePaused : AppState :=
  { recordingInit with recordingState := RecordingState.PAUSED,
                       mediaRecorder := some MediaRecorderState.paused }

/-- The state the timeout callback leaves when it fires on `stateArmed`:
automatically paused, with the spent handle still in the ref. -/
def statePausedAuto : AppState :=
  { recordingInit with recordingState := RecordingState.PAUSED,
                       mediaRecorder := some MediaRecorderState.paused,
                       silenceTimer := TimerRef.spent }

/-- The state after a loud sample auto-resumes `statePausedAuto`: recording
again, but the silence-timer ref still holds the spent handle. -/
def stateStale : AppState :=
  { recordingInit with silenceTimer := TimerRef.spent }

/-- Mid-calibration state: one sample (10) collected. -/
def calStateOne : AppState :=
  { startCalibrationState 0 with calibrationData := [10] }

/-- Mid-calibration state: two samples (10, 10) collected. -/
def calStateTwo : AppState :=
  { startCalibrationState 0 with calibrationData := [10, 10] }

/-! ## Evaluation lemmas

Rational multiplication and division do not reduce in the kernel, so the
concrete-trace proofs below first evaluate each volume test and baseline
computation by `norm_num`. -/

lemma isSilent_five_ten : isSilent 5 10 = true := by
  norm_num [isSilent, SILENCE_MULTIPLIER]

lemma isSilent_thirty_ten : isSilent 30 10 = false := by
  norm_num [isSilent, SILENCE_MULTIPLIER]

lemma isLoud_thirty_ten : isLoudEnoughToResume 30 10 = true := by
  norm_num [isLoudEnoughToResume, SOUND_MULTIPLIER]

lemma threshold_one_sample : calibratedSilenceThreshold [10] = 10 := by
  norm_num [calibratedSilenceThreshold]

lemma threshold_two_samples : calibratedSilenceThreshold [10, 10] = 10 := by
  norm_num [calibratedSilenceThreshold]

lemma effectiveDelay_zero : effectiveDelay 0 = 400 := rfl

/-! ## Single-step evaluation of the concrete traces -/

lemma step_recordingInit_silent :
    step recordingInit (Event.analysisTick 0 5) = stateArmed := by
  simp [step, stepAnalysisTick, recordingInit, stateArmed, isSilent_five_ten,
    effectiveDelay_zero]

lemma step_stateArmed_silent (t : Nat) :
    step stateArmed (Event.analysisTick t 5) = stateArmed := by
  simp [step, stepAnalysisTick, stateArmed, recordingInit, isSilent_five_ten]

lemma step_stateArmed_fire :
    step stateArmed (Event.silenceTimerFire 400) = statePausedAuto := rfl

lemma step_statePausedAuto_loud :
    step statePausedAuto (Event.analysisTick 450 30) = stateStale := by
  simp [step, stepAnalysisTick, statePausedAuto, stateStale, recordingInit,
    isLoud_thirty_ten]

lemma step_stateStale_silent (t : Nat) :
    step stateStale (Event.analysisTick t 5) = stateStale := by
  simp [step, stepAnalysisTick, stateStale, recordingInit, isSilent_five_ten]

lemma step_calStart_collect :
    step (startCalibrationState 0) (Event.calibrationTick 10) = calStateOne := rfl

lemma step_calStateOne_stop :
    step calStateOne Event.stop = calStateOne := rfl

lemma step_calStateOne_collect :
    step calStateOne (Event.calibrationTick 10) = calStateTwo := rfl

/-! ## Claims -/

/-- C1: for every baseline b ≥ 1 and volume v, the per-tick classification is
Silent iff v < 2.0·b and Loud iff v > 2.5·b, otherwise Neutral; Silent and
Loud are mutually exclusive for the same (v, b). -/
theorem claim_C1_hysteresis_classification (v b : ℚ) (hb : 1 ≤ b) :
    (classify v b = SampleClass.Silent ↔ v < b * SILENCE_MULTIPLIER) ∧
    (classify v b = SampleClass.Loud ↔ b * SOUND_MULTIPLIER < v) ∧
    ¬(v < b * SILENCE_MULTIPLIER ∧ b * SOUND_MULTIPLIER < v) := by
  have hmul : b * SILENCE_MULTIPLIER ≤ b * SOUND_MULTIPLIER := by
    unfold SILENCE_MULTIPLIER SOUND_MULTIPLIER
    nlinarith
  by_cases hs : v < b * SILENCE_MULTIPLIER
  · have hnl : ¬ b * SOUND_MULTIPLIER < v := by linarith
    refine ⟨?_, ?_, ?_⟩
    · simp [classify, isSilent, hs]
    · simp [classify, isSilent, hs, hnl]
    · exact fun h => hnl h.2
  · by_cases hl : b * SOUND_MULTIPLIER < v
    · refine ⟨?_, ?_, ?_⟩
      · simp [classify, isSilent, isLoudEnoughToResume, hs, hl]
      · simp [classify, isSilent, isLoudEnoughToResume, hs, hl]
      · exact fun h => hs h.1
    · refine ⟨?_, ?_, ?_⟩
      · simp [classify, isSilent, isLoudEnoughToResume, hs, hl]
      · simp [classify, isSilent, isLoudEnoughToResume, hs, hl]
      · exact fun h => hs h.1

/-- Witness for C1 at b = 10, v = 21 (the dead zone: 20 ≤ 21 ≤ 25). -/
theorem claim_C1_witness :
    (1 : ℚ) ≤ 10 ∧
    ((classify 21 10 = SampleClass.Silent ↔ (21 : ℚ) < 10 * SILENCE_MULTIPLIER) ∧
     (classify 21 10 = SampleClass.Loud ↔ (10 : ℚ) * SOUND_MULTIPLIER < 21) ∧
     ¬((21 : ℚ) < 10 * SILENCE_MULTIPLIER ∧ (10 : ℚ) * SOUND_MULTIPLIER < 21)) :=
  ⟨by norm_num, claim_C1_hysteresis_classification 21 10 (by norm_num)⟩

/-- C2: every tightness adjustment clamps the result to [-5, 5]; for every
tightness the effective debounce delay is 400 − 50·t ms, strictly decreasing
in t, with delay(-5) = 650, delay(0) = 400, delay(5) = 150. -/
theorem claim_C2_tightness_clamp_delay :
    (∀ prev delta : Int,
      -5 ≤ handleTightnessChange prev delta ∧ handleTightnessChange prev delta ≤ 5) ∧
    (∀ t : Int, -5 ≤ t → t ≤ 5 → silenceDetectionTime t = 400 - 50 * t) ∧
    (∀ s t : Int, s < t → silenceDetectionTime t < silenceDetectionTime s) ∧
    silenceDetectionTime (-5) = 650 ∧
    silenceDetectionTime 0 = 400 ∧
    silenceDetectionTime 5 = 150 := by
  refine ⟨?_, ?_, ?_, by decide, by decide, by decide⟩
  · intro prev delta
    unfold handleTightnessChange
    omega
  · intro t _ _
    unfold silenceDetectionTime BASE_SILENCE_DETECTION_TIME_MS PAUSE_TIGHTNESS_STEP_MS
    ring
  · intro s t hst
    unfold silenceDetectionTime BASE_SILENCE_DETECTION_TIME_MS PAUSE_TIGHTNESS_STEP_MS
    omega

/-- Witness for C2: the delay formula instantiated at tightness 3. -/
theorem claim_C2_witness :
    silenceDetectionTime 3 = 400 - 50 * 3 :=
  claim_C2_tightness_clamp_delay.2.1 3 (by decide) (by decide)

/-- C3 counterexample: the claim says the computed baseline is always ≥ 1,
but a single collected sample of value 1/2 — realizable as the level-meter
average of a 128-bin array holding one 64 and 127 zeros — yields a baseline
of exactly 1/2, which is < 1. -/
theorem claim_C3_counterexample :
    averageVolume (64 :: List.replicate 127 0) = some ((1 : ℚ) / 2) ∧
    calibratedSilenceThreshold [(1 : ℚ) / 2] = (1 : ℚ) / 2 ∧
    calibratedSilenceThreshold [(1 : ℚ) / 2] < 1 := by
  refine ⟨?_, by norm_num [calibratedSilenceThreshold], by norm_num [calibratedSilenceThreshold]⟩
  simp [averageVolume, List.sum_replicate]
  norm_num

/-- C3 (amended): the baseline computed at the end of the calibration window
is always strictly positive; when zero samples were collected, or their
arithmetic mean is 0, it is exactly 1 and never 0; a strictly positive mean
is used unchanged, even when it is below 1. -/
theorem claim_C3_baseline_positive (calibrationData : List ℚ) :
    0 < calibratedSilenceThreshold calibrationData ∧
    (calibrationData = [] → calibratedSilenceThreshold calibrationData = 1) ∧
    (calibrationData.sum / (calibrationData.length : ℚ) = 0 →
      calibratedSilenceThreshold calibrationData = 1) ∧
    (0 < calibrationData.sum / (calibrationData.length : ℚ) →
      calibratedSilenceThreshold calibrationData =
        calibrationData.sum / (calibrationData.length : ℚ)) := by
  unfold calibratedSilenceThreshold
  by_cases hlen : calibrationData.length > 0
  · by_cases havg : calibrationData.sum / (calibrationData.length : ℚ) > 0
    · refine ⟨by simp [hlen, havg], ?_, ?_, ?_⟩
      · intro h
        subst h
        simp at hlen
      · intro h
        rw [h] at havg
        exact absurd havg (by norm_num)
      · intro _
        simp [hlen, havg]
    · refine ⟨by simp [hlen, havg], ?_, ?_, ?_⟩
      · intro h
        subst h
        simp at hlen
      · intro _
        simp [hlen, havg]
      · intro h
        exact absurd h havg
  · refine ⟨by simp [hlen], fun _ => by simp [hlen], fun _ => by simp [hlen], ?_⟩
    intro h
    have : calibrationData = [] := List.length_eq_zero.mp (by omega)
    subst this
    simp at h

/-- Witness for C3 (amended): empty sample list gives baseline exactly 1. -/
theorem claim_C3_witness :
    calibratedSilenceThreshold [] = 1 :=
  (claim_C3_baseline_positive []).2.1 rfl

/-- C4: the claim says every Silent run sustained for ≥ delay(t) ms while
Recording produces exactly one automatic pause.  The code violates this: the
timeout callback never nulls `silenceTimerRef`, so the fired handle stays in
the ref.  Concretely (baseline 10, tightness 0, delay 400 ms): a silent tick
(v = 5) at t = 0 arms the timeout and further silent ticks keep it; it fires
at t = 400 (one automatic pause); a loud tick (v = 30) at t = 450
auto-resumes; the session is then Recording with a spent, non-null handle,
and the fresh silent run from t = 500 to t = 1000 — 500 ms ≥ 400 ms with no
non-Silent sample — never arms a timeout, so no pause ever occurs in it:
every state along it stays RECORDING.  The start state is reproduced from
`startCalibrationState`, so the whole trace is reachable. -/
theorem claim_C4_stale_timer_trace :
    run (startCalibrationState 0) [Event.calibrationTick 10, Event.calibrationComplete] =
      recordingInit ∧
    (run recordingInit [Event.analysisTick 0 5, Event.analysisTick 100 5,
        Event.analysisTick 200 5, Event.analysisTick 300 5]).silenceTimer =
      TimerRef.armed 400 ∧
    (run recordingInit [Event.analysisTick 0 5, Event.analysisTick 100 5,
        Event.analysisTick 200 5, Event.analysisTick 300 5,
        Event.silenceTimerFire 400]).recordingState = RecordingState.PAUSED ∧
    (List.scanl step
        (run recordingInit [Event.analysisTick 0 5, Event.analysisTick 100 5,
          Event.analysisTick 200 5, Event.analysisTick 300 5,
          Event.silenceTimerFire 400, Event.analysisTick 450 30])
        [Event.analysisTick 500 5, Event.analysisTick 600 5, Event.analysisTick 700 5,
          Event.analysisTick 800 5, Event.analysisTick 900 5,
          Event.analysisTick 1000 5]).all
      (fun st => decide (st.recordingState = RecordingState.RECORDING ∧
        st.silenceTimer = TimerRef.spent)) = true := by
  have hreach : run (startCalibrationState 0)
      [Event.calibrationTick 10, Event.calibrationComplete] = recordingInit := by
    simp [run, step_calStart_collect]
    simp [step, stepCalibrationComplete, calStateOne, startCalibrationState,
      threshold_one_sample, recordingInit]
  have harmed : run recordingInit [Event.analysisTick 0 5, Event.analysisTick 100 5,
      Event.analysisTick 200 5, Event.analysisTick 300 5] = stateArmed := by
    simp [run, step_recordingInit_silent, step_stateArmed_silent]
  have hpaused : run recordingInit [Event.analysisTick 0 5, Event.analysisTick 100 5,
      Event.analysisTick 200 5, Event.analysisTick 300 5,
      Event.silenceTimerFire 400] = statePausedAuto := by
    simp [run, step_recordingInit_silent, step_stateArmed_silent, step_stateArmed_fire]
  have hstale : run recordingInit [Event.analysisTick 0 5, Event.analysisTick 100 5,
      Event.analysisTick 200 5, Event.analysisTick 300 5,
      Event.silenceTimerFire 400, Event.analysisTick 450 30] = stateStale := by
    simp [run, step_recordingInit_silent, step_stateArmed_silent, step_stateArmed_fire,
      step_statePausedAuto_loud]
  refine ⟨hreach, by rw [harmed]; rfl, by rw [hpaused]; rfl, ?_⟩
  rw [hstale]
  simp only [List.scanl, step_stateStale_silent]
  rfl

/-- C5: while Recording with the pause timeout armed but not yet fired, one
non-Silent sample cancels it and nulls the ref; a subsequent Silent sample
arms a fresh timeout for the full effective delay measured from its own
tick time, reusing no previously elapsed time. -/
theorem claim_C5_cancel_and_rearm (s : AppState) (d now later : Nat) (v w : ℚ)
    (hstate : s.recordingState = RecordingState.RECORDING)
    (hrec : s.mediaRecorder = some MediaRecorderState.recording)
    (htimer : s.silenceTimer = TimerRef.armed d)
    (hv : ¬ v < s.silenceThreshold * SILENCE_MULTIPLIER)
    (hw : w < s.silenceThreshold * SILENCE_MULTIPLIER) :
    (step s (Event.analysisTick now v)).silenceTimer = TimerRef.null ∧
    (step (step s (Event.analysisTick now v)) (Event.analysisTick later w)).silenceTimer =
      TimerRef.armed (later + effectiveDelay s.pauseTightness) := by
  rcases s with ⟨rs, mr, st, mp, pt, th, ca, cd⟩
  simp only at hstate hrec htimer hv hw
  subst hstate hrec htimer
  simp [step, stepAnalysisTick, isSilent, hv, hw]

/-- Witness for C5 at the armed state (baseline 10, tightness 0): a loud
sample (30) at t = 450 cancels, a silent sample (5) at t = 500 re-arms for
deadline 500 + 400. -/
theorem claim_C5_witness :
    (step stateArmed (Event.analysisTick 450 30)).silenceTimer = TimerRef.null ∧
    (step (step stateArmed (Event.analysisTick 450 30)) (Event.analysisTick 500 5)).silenceTimer =
      TimerRef.armed (500 + effectiveDelay stateArmed.pauseTightness) :=
  claim_C5_cancel_and_rearm stateArmed 400 450 500 30 5 rfl rfl rfl
    (by norm_num [stateArmed, recordingInit, SILENCE_MULTIPLIER])
    (by norm_num [stateArmed, recordingInit, SILENCE_MULTIPLIER])

lemma step_keeps_manual_pause (s : AppState) (e : Event) (he : autoEvent e = true)
    (h1 : s.mediaRecorder = some MediaRecorderState.paused)
    (h2 : s.isManuallyPaused = true)
    (h3 : s.recordingState = RecordingState.PAUSED) :
    (step s e).mediaRecorder = some MediaRecorderState.paused ∧
    (step s e).isManuallyPaused = true ∧
    (step s e).recordingState = RecordingState.PAUSED := by
  cases e with
  | analysisTick now v =>
    simp [step, stepAnalysisTick, h1, h2, h3]
  | silenceTimerFire now =>
    simp [step, stepSilenceTimerFire, h1, h2, h3]
  | manualPause => simp [autoEvent] at he
  | manualResume => simp [autoEvent] at he
  | stop => simp [autoEvent] at he
  | calibrationTick v => simp [autoEvent] at he
  | calibrationComplete => simp [autoEvent] at he

lemma run_keeps_manual_pause (es : List Event) (s : AppState)
    (hes : ∀ e ∈ es, autoEvent e = true)
    (h1 : s.mediaRecorder = some MediaRecorderState.paused)
    (h2 : s.isManuallyPaused = true)
    (h3 : s.recordingState = RecordingState.PAUSED) :
    (run s es).mediaRecorder = some MediaRecorderState.paused ∧
    (run s es).isManuallyPaused = true ∧
    (run s es).recordingState = RecordingState.PAUSED := by
  induction es generalizing s with
  | nil => exact ⟨h1, h2, h3⟩
  | cons e es ih =>
    have he := hes e (List.mem_cons_self e es)
    obtain ⟨g1, g2, g3⟩ := step_keeps_manual_pause s e he h1 h2 h3
    exact ih (step s e) (fun x hx => hes x (List.mem_cons_of_mem e hx)) g1 g2 g3

/-- C6: a manual pause while the recorder is recording immediately yields
PAUSED and sets the manual-override flag; thereafter no sequence of
automatic events (analysis ticks with any volumes, including Loud ones, and
timeout firings) ever resumes or clears the flag; the explicit manual-resume
command then returns the session to RECORDING. -/
theorem claim_C6_manual_pause_override (s : AppState) (es : List Event)
    (hrec : s.mediaRecorder = some MediaRecorderState.recording)
    (hes : ∀ e ∈ es, autoEvent e = true) :
    (step s Event.manualPause).recordingState = RecordingState.PAUSED ∧
    (step s Event.manualPause).isManuallyPaused = true ∧
    (run (step s Event.manualPause) es).recordingState = RecordingState.PAUSED ∧
    (run (step s Event.manualPause) es).isManuallyPaused = true ∧
    (step (run (step s Event.manualPause) es) Event.manualResume).recordingState =
      RecordingState.RECORDING := by
  have hstep : step s Event.manualPause =
      { s with mediaRecorder := some MediaRecorderState.paused,
               recordingState := RecordingState.PAUSED,
               isManuallyPaused := true } := by
    simp [step, stepManualPause, hrec]
  obtain ⟨g1, g2, g3⟩ := run_keeps_manual_pause es (step s Event.manualPause) hes
    (by rw [hstep]) (by rw [hstep]) (by rw [hstep])
  have g1' : (run (stepManualPause s) es).mediaRecorder =
      some MediaRecorderState.paused := g1
  refine ⟨by rw [hstep], by rw [hstep], g3, g2, ?_⟩
  simp [step, stepManualResume, g1']

/-- Witness for C6: manual pause from `recordingInit`, then a loud tick
(v = 100 > 25) and a timeout firing fail to resume; manual resume does. -/
theorem claim_C6_witness :
    (step recordingInit Event.manualPause).recordingState = RecordingState.PAUSED ∧
    (step recordingInit Event.manualPause).isManuallyPaused = true ∧
    (run (step recordingInit Event.manualPause)
        [Event.analysisTick 0 100, Event.silenceTimerFire 1]).recordingState =
      RecordingState.PAUSED ∧
    (run (step recordingInit Event.manualPause)
        [Event.analysisTick 0 100, Event.silenceTimerFire 1]).isManuallyPaused = true ∧
    (step (run (step recordingInit Event.manualPause)
        [Event.analysisTick 0 100, Event.silenceTimerFire 1])
      Event.manualResume).recordingState = RecordingState.RECORDING :=
  claim_C6_manual_pause_override recordingInit
    [Event.analysisTick 0 100, Event.silenceTimerFire 1] rfl (by decide)

/-- C7: while Paused with the manual-override flag false, a single sample
with volume strictly greater than 2.5 × baseline resumes to RECORDING on
that same tick, with no debounce. -/
theorem claim_C7_immediate_resume (s : AppState) (now : Nat) (v : ℚ)
    (hstate : s.recordingState = RecordingState.PAUSED)
    (hrec : s.mediaRecorder = some MediaRecorderState.paused)
    (hflag : s.isManuallyPaused = false)
    (hloud : s.silenceThreshold * SOUND_MULTIPLIER < v) :
    (step s (Event.analysisTick now v)).recordingState = RecordingState.RECORDING ∧
    (step s (Event.analysisTick now v)).mediaRecorder =
      some MediaRecorderState.recording := by
  rcases s with ⟨rs, mr, st, mp, pt, th, ca, cd⟩
  simp only at hstate hrec hflag hloud
  subst hstate hrec hflag
  simp [step, stepAnalysisTick, isLoudEnoughToResume, hloud]

/-- Witness for C7: spec scenario C — Paused, override false, baseline 10,
volume 26 > 25 resumes immediately. -/
theorem claim_C7_witness :
    (step statePaused (Event.analysisTick 0 26)).recordingState =
      RecordingState.RECORDING ∧
    (step statePaused (Event.analysisTick 0 26)).mediaRecorder =
      some MediaRecorderState.recording :=
  claim_C7_immediate_resume statePaused 0 26 rfl rfl rfl
    (by norm_num [statePaused, recordingInit, SOUND_MULTIPLIER])

/-- C8: the claim says a stop during Calibrating cancels both calibration
timers and that no baseline is ever computed or applied afterwards.  The
code violates this: the calibration interval and completion timeout live in
`startCalibration`'s closure and `stopRecording` never cancels them (and,
the MediaRecorder not existing yet, does not even leave CALIBRATING).
Concretely: calibrating with tightness 0, one collected sample (10), then
stop — the calibration timers are still armed and the state is still
CALIBRATING; the collection interval then collects another sample and the
completion timeout fires, computing and installing baseline 10 and
transitioning the stopped-by-the-user session into RECORDING with a live
recorder. -/
theorem claim_C8_stop_during_calibration_trace :
    (run (startCalibrationState 0) [Event.calibrationTick 10, Event.stop]).calTimersArmed =
      true ∧
    (run (startCalibrationState 0) [Event.calibrationTick 10, Event.stop]).recordingState =
      RecordingState.CALIBRATING ∧
    (run (startCalibrationState 0) [Event.calibrationTick 10, Event.stop,
        Event.calibrationTick 10, Event.calibrationComplete]).recordingState =
      RecordingState.RECORDING ∧
    (run (startCalibrationState 0) [Event.calibrationTick 10, Event.stop,
        Event.calibrationTick 10, Event.calibrationComplete]).silenceThreshold = 10 ∧
    (run (startCalibrationState 0) [Event.calibrationTick 10, Event.stop,
        Event.calibrationTick 10, Event.calibrationComplete]).mediaRecorder =
      some MediaRecorderState.recording := by
  have h1 : run (startCalibrationState 0) [Event.calibrationTick 10, Event.stop] =
      calStateOne := by
    simp [run, step_calStart_collect, step_calStateOne_stop]
  have h2 : run (startCalibrationState 0) [Event.calibrationTick 10, Event.stop,
      Event.calibrationTick 10, Event.calibrationComplete] =
      step calStateTwo Event.calibrationComplete := by
    simp [run, step_calStart_collect, step_calStateOne_stop, step_calStateOne_collect]
  refine ⟨by rw [h1]; rfl, by rw [h1]; rfl, ?_, ?_, ?_⟩ <;>
    rw [h2] <;>
    simp [step, stepCalibrationComplete, calStateTwo, startCalibrationState,
      threshold_two_samples]

/-- C10: when the debounce timeout fires on a recording session, it clears
the manual-override flag as part of the automatic pause, so in the Paused
state it produces, a single Loud sample (volume > 2.5 × baseline) suffices
to auto-resume. -/
theorem claim_C10_auto_pause_clears_override (s : AppState) (tf now : Nat) (v : ℚ)
    (hrec : s.mediaRecorder = some MediaRecorderState.recording)
    (htimer : s.silenceTimer = TimerRef.armed tf)
    (hloud : s.silenceThreshold * SOUND_MULTIPLIER < v) :
    (step s (Event.silenceTimerFire tf)).isManuallyPaused = false ∧
    (step s (Event.silenceTimerFire tf)).recordingState = RecordingState.PAUSED ∧
    (step (step s (Event.silenceTimerFire tf)) (Event.analysisTick now v)).recordingState =
      RecordingState.RECORDING ∧
    (step (step s (Event.silenceTimerFire tf)) (Event.analysisTick now v)).mediaRecorder =
      some MediaRecorderState.recording := by
  rcases s with ⟨rs, mr, st, mp, pt, th, ca, cd⟩
  simp only at hrec htimer hloud
  subst hrec htimer
  simp [step, stepSilenceTimerFire, stepAnalysisTick, isLoudEnoughToResume, hloud]

/-- Witness for C10: the timeout fires on `stateArmed` (baseline 10); a
subsequent sample of 26 > 25 auto-resumes. -/
theorem claim_C10_witness :
    (step stateArmed (Event.silenceTimerFire 400)).isManuallyPaused = false ∧
    (step stateArmed (Event.silenceTimerFire 400)).recordingState =
      RecordingState.PAUSED ∧
    (step (step stateArmed (Event.silenceTimerFire 400))
        (Event.analysisTick 450 26)).recordingState = RecordingState.RECORDING ∧
    (step (step stateArmed (Event.silenceTimerFire 400))
        (Event.analysisTick 450 26)).mediaRecorder =
      some MediaRecorderState.recording :=
  claim_C10_auto_pause_clears_override stateArmed 400 450 26 rfl rfl
    (by norm_num [stateArmed, recordingInit, SOUND_MULTIPLIER])

/-- C9 counterexample: the claim says that with zero frequency bins the
level-meter computation returns the numeric value 0; in fact the JS
computation is 0/0, which is NaN (modelled as `none`), not 0. -/
theorem claim_C9_counterexample :
    averageVolume [] = none ∧ averageVolume [] ≠ some 0 := by
  constructor
  · rfl
  · simp [averageVolume]

/-- C9 (amended): with zero frequency bins the level-meter computation
yields NaN (0/0), not the numeric value 0; since every comparison with NaN
is false, such a sample tests neither silent nor loud against any
threshold, so the tick classifies as Neutral and triggers no transition. -/
theorem claim_C9_nan_neutral (b : ℚ) :
    averageVolume [] = none ∧
    jsLt (averageVolume []) (b * SILENCE_MULTIPLIER) = false ∧
    jsGt (averageVolume []) (b * SOUND_MULTIPLIER) = false := by
  refine ⟨rfl, ?_, ?_⟩ <;> rfl

end JumpCutHero
